import Mathlib

/-!
Shallow embedding of the two diagnostic scripts of the
SmartThingsHomekitBridge repository:

  - scripts/debug/test-hap-pairing.py  (four probes, verdict aggregation,
    driver exit codes)
  - scripts/debug/test-mdns.py         (focused mDNS check: direct port
    test, platform-selected discovery strategy)

Pure decision logic (branch structure, substring checks, verdict and
exit-code mapping) is translated directly from the source; I/O effects
(sockets, subprocesses, HTTP) are modelled by passing their observable
results as explicit inputs.  Python string membership `needle in hay`
is modelled by `strContains`.
-/

namespace SmartThingsBridge

/-- Python `needle in hay` on character lists: true iff `needle` occurs as a
contiguous substring of the haystack. -/
def hasSubstr (needle : List Char) : List Char → Bool
  | [] => needle.isEmpty
  | c :: rest => needle.isPrefixOf (c :: rest) || hasSubstr needle rest

/-- Python `needle in hay` on strings. -/
def strContains (hay needle : String) : Bool :=
  hasSubstr needle.toList hay.toList

namespace TestHapPairing

/-- Module-level constant `HAP_PORT = 51826` (test-hap-pairing.py line 19). -/
def HAP_PORT : Nat := 51826

/-- Module-level constant `WEB_PORT = 3000` (line 20). -/
def WEB_PORT : Nat := 3000

/-- Module-level constant `TIMEOUT = 10` (line 21). -/
def TIMEOUT : Nat := 10

/-- Module-level constant `MAX_RETRIES = 3` (line 22).  It is declared and
never read anywhere else in the script. -/
def MAX_RETRIES : Nat := 3

/-! ### test_hap_discovery_endpoint (lines 99-129) -/

/-- Observable outcome of `urllib.request.urlopen` as the source's
`try`/`except` ladder distinguishes it: a response object whose `getcode()`
is `code` (the no-exception branch), an `urllib.error.HTTPError` carrying
`code`, an `urllib.error.URLError` (connection refused / timeout), or any
other fault reaching the outer `except Exception`. -/
inductive HttpResult where
  | success (code : Nat)
  | httpError (code : Nat)
  | urlError
  | otherFault
deriving DecidableEq

/-- urllib dispatch for a plain HTTP exchange: `urlopen` returns normally
for final statuses below 400 and raises `HTTPError` for 4xx/5xx; `none`
models a connection-level fault (`URLError`). -/
def urlopenResult : Option Nat → HttpResult
  | none => .urlError
  | some code => if code < 400 then .success code else .httpError code

/-- `test_hap_discovery_endpoint` (lines 99-129): a normal (2xx/3xx)
response returns False ("Unexpected success"), an `HTTPError` returns True
exactly for codes 401 and 470, and `URLError` or any other fault returns
False. -/
def test_hap_discovery_endpoint : HttpResult → Bool
  | .success _ => false
  | .httpError code => code == 401 || code == 470
  | .urlError => false
  | .otherFault => false

/-- The probe as a function of the raw HTTP status of the protected
endpoint (`none` = connection fault). -/
def hapDiscoveryProbe (status : Option Nat) : Bool :=
  test_hap_discovery_endpoint (urlopenResult status)

/-! ### test_web_api (lines 131-152) -/

/-- `test_web_api`'s payload check (line 142), as a function of the key set
of the decoded JSON object: `"qrCode" in data and ("pairingCode" in data or
"setupCode" in data or "pinCode" in data)`. -/
def test_web_api (keys : List String) : Bool :=
  keys.contains "qrCode" &&
    (keys.contains "pairingCode" || keys.contains "setupCode" ||
      keys.contains "pinCode")

/-! ### test_hap_tcp_connection (lines 154-196) -/

/-- Observable result of the `sock.send`/`sock.recv` exchange after a
successful connect: either `socket.timeout` was raised (silent server), or
`recv` returned the byte string `bytes` (empty when the peer closed without
replying). -/
inductive RecvResult where
  | timeout
  | data (bytes : List Char)
deriving DecidableEq

/-- The protocol marker checked at line 176: `b"HTTP" in response`. -/
def httpMarker : List Char := "HTTP".toList

/-- What one run of `test_hap_tcp_connection` does: the boolean it returns,
whether the socket it opened at line 160 was closed before returning, and
the last failure/success message it logged. -/
structure TcpProbeRun where
  result : Bool
  sockClosed : Bool
  detail : String
deriving DecidableEq

/-- `test_hap_tcp_connection` (lines 154-196) as a function of the
`connect_ex` return value and the recv outcome.  When `connect_ex` returns
0, the inner `try ... finally: sock.close()` (lines 169-189) guarantees the
socket is closed on every branch.  When `connect_ex` returns nonzero the
function logs the error code and returns False at line 192 — a path that
never executes `sock.close()`, since the `finally` block belongs only to
the inner `try`. -/
def tcpProbeRun (connectEx : Int) (recv : RecvResult) : TcpProbeRun :=
  if connectEx = 0 then
    match recv with
    | .timeout => ⟨false, true, "HAP server connection timed out"⟩
    | .data bytes =>
      if bytes.isEmpty then ⟨false, true, "HAP server did not respond"⟩
      else if hasSubstr httpMarker bytes then
        ⟨true, true, "HAP server speaks HTTP"⟩
      else ⟨false, true, "HAP server response is not HTTP"⟩
  else
    ⟨false, false,
      "Cannot connect to HAP port: error code " ++ toString connectEx⟩

/-- The boolean the probe returns to `run_all_tests`. -/
def test_hap_tcp_connection (connectEx : Int) (recv : RecvResult) : Bool :=
  (tcpProbeRun connectEx recv).result

/-! ### test_mdns_advertisement (lines 41-97) -/

/-- Python `s.split(sep)` for a one-character separator, on character
lists: splits at every occurrence of `sep`, keeping empty pieces, so that
`"".split(sep) = [""]` and `"a\nb".split("\n") = ["a", "b"]`. -/
def splitOnChar (sep : Char) : List Char → List (List Char)
  | [] => [[]]
  | c :: rest =>
    if c == sep then [] :: splitOnChar sep rest
    else
      match splitOnChar sep rest with
      | [] => [[c]]
      | piece :: pieces => (c :: piece) :: pieces

/-- Result of one Python probe call: it either returned a boolean or let an
exception escape to its caller. -/
inductive PyOutcome where
  | ret (b : Bool)
  | raised (exc : String)
deriving DecidableEq

/-- Python regex `\w`: word character (letter, digit or underscore). -/
def isWordChar (c : Char) : Bool := c.isAlphanum || c == '_'

/-- The literal part of the regex `SmartThings Bridge \w+` (line 66),
including the trailing space before `\w+`. -/
def bridgeRegexLit : List Char := "SmartThings Bridge ".toList

/-- `re.search(r"SmartThings Bridge \w+", line).group(0)` (lines 66-68):
the first occurrence of the literal followed by at least one word
character, extended greedily; `none` when the pattern matches nowhere. -/
def reSearchBridge : List Char → Option String
  | [] => none
  | c :: rest =>
    if bridgeRegexLit.isPrefixOf (c :: rest) then
      let word := ((c :: rest).drop bridgeRegexLit.length).takeWhile isWordChar
      if word.isEmpty then reSearchBridge rest
      else some (String.mk (bridgeRegexLit ++ word))
    else reSearchBridge rest

/-- How the `for line in output.split('\n')` loop (lines 62-81) ends:
`found` = some bridge instance resolved with `"can be reached at"` and
`"51826"` in the resolve output (`found_bridge = True; break`); `notFound`
= the loop ran out of lines with `found_bridge` still False;
`resolveTimedOut` = a nested resolve `communicate(timeout=1)` (line 76)
raised `subprocess.TimeoutExpired` out of the loop. -/
inductive ScanResult where
  | found
  | notFound
  | resolveTimedOut
deriving DecidableEq

/-- The bridge-scanning loop (lines 62-81).  `resolve name` is the stdout
of `dns-sd -L name _hap._tcp local.` captured by `communicate(timeout=1)`,
or `none` when that call raises `TimeoutExpired`.  Lines without
`'SmartThings Bridge'`, lines where the regex does not match, and resolve
outputs missing either required substring all fall through to the next
line. -/
def scanLines (resolve : String → Option String) : List String → ScanResult
  | [] => .notFound
  | line :: rest =>
    if strContains line "SmartThings Bridge" then
      match reSearchBridge line.toList with
      | some bridgeName =>
        match resolve bridgeName with
        | none => .resolveTimedOut
        | some resolveOutput =>
          if strContains resolveOutput "can be reached at" &&
              strContains resolveOutput "51826" then .found
          else scanLines resolve rest
      | none => scanLines resolve rest
    else scanLines resolve rest

/-- `test_mdns_advertisement` (lines 41-97).  Inputs: `launchOk` = whether
`subprocess.Popen(["dns-sd", ...])` succeeded (a launch fault such as
`FileNotFoundError` is caught by `except Exception` and yields False);
`comm1` = the stdout captured by the first `proc.communicate(timeout=1)`
(line 53), `none` when that call raises `subprocess.TimeoutExpired`;
`resolve` = the per-instance resolve outputs as in `scanLines`.

Translation note on the `comm1 = none` branch: the handler
`except subprocess.TimeoutExpired:` (lines 92-94) evaluates
`"_hap._tcp" in output`, but on this path the assignment at line 53 never
happened, so the local `output` is unbound and the handler itself raises
`UnboundLocalError`.  The sibling `except Exception` clause (line 95) only
catches exceptions raised in the `try` body, not in another handler, so the
`UnboundLocalError` escapes the probe.  When instead a nested resolve
communicate raises `TimeoutExpired` (line 76), `output` is already bound
and the handler returns `"_hap._tcp" in output` — True on that path, since
the loop is only reached when that substring test succeeded. -/
def test_mdns_advertisement (launchOk : Bool) (comm1 : Option String)
    (resolve : String → Option String) : PyOutcome :=
  if !launchOk then .ret false
  else
    match comm1 with
    | none => .raised "UnboundLocalError"
    | some output =>
      if strContains output "_hap._tcp" then
        match scanLines resolve
            ((splitOnChar '\n' output.toList).map String.mk) with
        | .found => .ret true
        | .notFound => .ret false
        | .resolveTimedOut => .ret (strContains output "_hap._tcp")
      else .ret false

/-- The browse command the probe launches (line 45): hard-coded
`["dns-sd", "-B", "_hap._tcp", "local."]`.  The source contains no
reference to `sys.platform`; the probe runs this same command on every
platform, so the command is a constant function of the platform.  Modelled
as a function of the platform name to let platform-dependence claims be
stated. -/
def mdnsAdvertisementCmd (_platform : String) : List String :=
  ["dns-sd", "-B", "_hap._tcp", "local."]

/-! ### run_all_tests (lines 198-249) and main (lines 251-269) -/

/-- The four probe names, in the order `run_all_tests` declares and runs
them (lines 204-225). -/
inductive ProbeName where
  | tcpConnection
  | hapDiscovery
  | webApi
  | mdnsAdvertisement
deriving DecidableEq

/-- The fixed declared order: Test 1 TCP Connection (line 213), Test 2 HAP
Discovery (line 217), Test 3 Web API (line 221), Test 4 mDNS Advertisement
(line 225). -/
def probeOrder : List ProbeName :=
  [.tcpConnection, .hapDiscovery, .webApi, .mdnsAdvertisement]

/-- The `results` mapping built by `run_all_tests` (lines 204-209). -/
structure ProbeResults where
  tcpConnection : Bool
  hapDiscovery : Bool
  webApi : Bool
  mdnsAdvertisement : Bool
deriving DecidableEq

/-- `all_passed = all(results.values())` (line 235). -/
def allPassed (r : ProbeResults) : Bool :=
  r.tcpConnection && r.hapDiscovery && r.webApi && r.mdnsAdvertisement

/-- `critical_passed = results["TCP Connection"] and
results["mDNS Advertisement"]` (line 238). -/
def criticalPassed (r : ProbeResults) : Bool :=
  r.tcpConnection && r.mdnsAdvertisement

/-- The three-way verdict of `run_all_tests` (lines 241-249): the branch
logging "All tests passed" is a full pass, the branch logging "Critical
tests passed but some issues detected" is a degraded pass, and the branch
logging "Critical tests failed" is a fail. -/
inductive Verdict where
  | pass
  | passWithWarnings
  | fail
deriving DecidableEq

/-- The branch taken by `run_all_tests` (lines 241-249). -/
def run_all_tests_verdict (r : ProbeResults) : Verdict :=
  if allPassed r then .pass
  else if criticalPassed r then .passWithWarnings
  else .fail

/-- The boolean `run_all_tests` returns: True on the first two branches
(lines 243, 246), False on the third (line 249). -/
def run_all_tests (r : ProbeResults) : Bool :=
  match run_all_tests_verdict r with
  | .fail => false
  | _ => true

/-- `run_all_tests`'s probe executions (lines 211-225), with a trace of the
calls made.  The source body is four straight-line calls with no loop and
no use of `MAX_RETRIES`; `maxRetries` is the module constant in scope,
which the function never reads. -/
def run_all_tests_run (_maxRetries : Nat) (probe : ProbeName → Bool) :
    ProbeResults × List ProbeName :=
  let t1 := probe .tcpConnection
  let t2 := probe .hapDiscovery
  let t3 := probe .webApi
  let t4 := probe .mdnsAdvertisement
  (⟨t1, t2, t3, t4⟩,
   [.tcpConnection, .hapDiscovery, .webApi, .mdnsAdvertisement])

/-- How one run of `main` (lines 251-269) ends: the probes completed with
results `r`, or a `KeyboardInterrupt` arrived, or an unexpected fault was
caught by the outer `except Exception`. -/
inductive DriverEvent where
  | probesCompleted (r : ProbeResults)
  | keyboardInterrupt
  | unexpectedFault
deriving DecidableEq

/-- The exit status passed to `sys.exit` by `main`: `0 if success else 1`
(line 262), 130 on `KeyboardInterrupt` (line 266), 1 on any other
exception (line 269). -/
def mainExitCode : DriverEvent → Nat
  | .probesCompleted r => if run_all_tests r then 0 else 1
  | .keyboardInterrupt => 130
  | .unexpectedFault => 1

end TestHapPairing

namespace TestMdns

/-- The avahi-browse command of `test_mdns_with_avahi`
(test-mdns.py line 18). -/
def avahiBrowseCmd : List String := ["avahi-browse", "-ptr", "_hap._tcp"]

/-- The dns-sd browse command of `test_mdns_with_dns_sd` (line 34). -/
def dnsSdBrowseCmd : List String := ["dns-sd", "-B", "_hap._tcp", "local."]

/-- The two discovery strategies `main` can dispatch to (lines 118-121). -/
inductive MdnsStrategy where
  | dnsSd
  | avahiBrowse
deriving DecidableEq

/-- `main`'s platform dispatch (lines 118-121): `test_mdns_with_dns_sd` when
`sys.platform == "darwin"`, else `test_mdns_with_avahi`. -/
def selectStrategy (platform : String) : MdnsStrategy :=
  if platform == "darwin" then .dnsSd else .avahiBrowse

/-- `main` of test-mdns.py (lines 109-128) as a function of the direct
port check's boolean, the platform, and the boolean each strategy would
return.  The result is the exit status together with whether any mDNS
discovery strategy was invoked: when `test_direct_port()` returns False,
`main` exits 1 at line 115 before reaching the dispatch; otherwise it runs
the selected strategy and exits 0 iff it returned True. -/
def mdns_main (portOk : Bool) (platform : String)
    (dnsSdResult avahiResult : Bool) : Nat × Bool :=
  if !portOk then (1, false)
  else
    let success :=
      match selectStrategy platform with
      | .dnsSd => dnsSdResult
      | .avahiBrowse => avahiResult
    (if success then 0 else 1, true)

end TestMdns

/-- Modelled from the spec's words, for comparison with the source (this is
the claimed behaviour, not a translation of the code): a
platform-conditional advertisement probe "selects its concrete strategy
based on the host platform at run time (dns-sd on macOS, avahi-browse
otherwise)", stated of the browse command the probe launches. -/
def platformSelectsPerSpec (cmdOf : String → List String) : Prop :=
  ∀ platform, cmdOf platform =
    if platform = "darwin" then TestMdns.dnsSdBrowseCmd
    else TestMdns.avahiBrowseCmd

open TestHapPairing TestMdns

/-- C1: the verdict aggregator returns a full pass exactly when all four
probes passed, a degraded pass exactly when the critical subset (TCP
Connection and mDNS Advertisement) passed but not all four did, and a fail
exactly when some critical probe failed, regardless of the other
results. -/
theorem c1_verdict_aggregator (r : ProbeResults) :
    (run_all_tests_verdict r = Verdict.pass ↔
      (r.tcpConnection = true ∧ r.hapDiscovery = true ∧ r.webApi = true ∧
        r.mdnsAdvertisement = true)) ∧
    (run_all_tests_verdict r = Verdict.passWithWarnings ↔
      (r.tcpConnection = true ∧ r.mdnsAdvertisement = true ∧
        ¬(r.hapDiscovery = true ∧ r.webApi = true))) ∧
    (run_all_tests_verdict r = Verdict.fail ↔
      ¬(r.tcpConnection = true ∧ r.mdnsAdvertisement = true)) := by
  rcases r with ⟨t, h, w, m⟩
  cases t <;> cases h <;> cases w <;> cases m <;> decide

/-- C2: `main` exits 0 exactly when the verdict is a full or degraded pass,
exits 1 exactly when the verdict is fail, exits 130 on a user interrupt,
and exits 1 on any unexpected fault outside the probes. -/
theorem c2_exit_codes (r : ProbeResults) :
    (mainExitCode (DriverEvent.probesCompleted r) = 0 ↔
      run_all_tests_verdict r ≠ Verdict.fail) ∧
    (mainExitCode (DriverEvent.probesCompleted r) = 1 ↔
      run_all_tests_verdict r = Verdict.fail) ∧
    mainExitCode DriverEvent.keyboardInterrupt = 130 ∧
    mainExitCode DriverEvent.unexpectedFault = 1 := by
  rcases r with ⟨t, h, w, m⟩
  cases t <;> cases h <;> cases w <;> cases m <;> decide

/-- C3: the protocol-challenge probe passes iff the protected endpoint's
HTTP status is 401 or 470; every 2xx (or other sub-400) response, every
other error status, and every connection fault (`none`) yields fail. -/
theorem c3_protocol_challenge (status : Option Nat) :
    hapDiscoveryProbe status = true ↔
      (status = some 401 ∨ status = some 470) := by
  cases status with
  | none => simp [hapDiscoveryProbe, urlopenResult, test_hap_discovery_endpoint]
  | some c =>
    simp only [hapDiscoveryProbe, urlopenResult, Option.some.injEq]
    by_cases hc : c < 400
    · simp only [if_pos hc, test_hap_discovery_endpoint]
      constructor
      · intro hfalse; exact absurd hfalse (by simp)
      · intro hor; omega
    · simp only [if_neg hc, test_hap_discovery_endpoint]
      simp

/-- C4: the API-shape probe passes iff the decoded payload's keys contain
"qrCode" together with at least one of "pairingCode", "setupCode" or
"pinCode". -/
theorem c4_api_shape (keys : List String) :
    test_web_api keys = true ↔
      ("qrCode" ∈ keys ∧
        ("pairingCode" ∈ keys ∨ "setupCode" ∈ keys ∨ "pinCode" ∈ keys)) := by
  simp [test_web_api, List.elem_iff, and_assoc, or_assoc]

/-- C5 (code bug): when the dns-sd browse subprocess launches fine but its
`communicate(timeout=1)` raises `TimeoutExpired` before any output was
captured, `test_mdns_advertisement` does not return a boolean — its
`except TimeoutExpired` handler reads the unbound local `output` and the
resulting `UnboundLocalError` escapes the probe. -/
theorem c5_mdns_probe_raises_on_first_timeout :
    test_mdns_advertisement true none (fun _ => none) =
      PyOutcome.raised "UnboundLocalError" := rfl

/-- C6: the TCP reachability probe passes iff `connect_ex` returned 0 and
the server's reply was received and contains the protocol marker "HTTP"; a
nonzero connect result fails recording the error code, a timed-out or
empty reply fails with the corresponding detail, and a nonempty reply
without the marker fails with the non-protocol detail. -/
theorem c6_tcp_probe (connectEx : Int) (recv : RecvResult) :
    (test_hap_tcp_connection connectEx recv = true ↔
      (connectEx = 0 ∧ ∃ bytes, recv = RecvResult.data bytes ∧
        hasSubstr httpMarker bytes = true)) ∧
    (connectEx ≠ 0 → tcpProbeRun connectEx recv =
      ⟨false, false,
        "Cannot connect to HAP port: error code " ++ toString connectEx⟩) ∧
    (connectEx = 0 → recv = RecvResult.timeout → tcpProbeRun connectEx recv =
      ⟨false, true, "HAP server connection timed out"⟩) ∧
    (connectEx = 0 → recv = RecvResult.data [] → tcpProbeRun connectEx recv =
      ⟨false, true, "HAP server did not respond"⟩) ∧
    (∀ bytes, connectEx = 0 → recv = RecvResult.data bytes → bytes ≠ [] →
      hasSubstr httpMarker bytes = false → tcpProbeRun connectEx recv =
        ⟨false, true, "HAP server response is not HTTP"⟩) := by
  refine ⟨?_, ?_, ?_, ?_, ?_⟩
  · by_cases h0 : connectEx = 0
    · subst h0
      cases recv with
      | timeout => simp [test_hap_tcp_connection, tcpProbeRun]
      | data bytes =>
        simp only [test_hap_tcp_connection, tcpProbeRun, if_pos rfl,
          RecvResult.data.injEq, true_and]
        by_cases hb : bytes.isEmpty
        · rw [List.isEmpty_iff] at hb
          subst hb
          simp [httpMarker, hasSubstr]
        · rw [if_neg hb]
          by_cases hm : hasSubstr httpMarker bytes
          · simp [hm]
          · simp only [Bool.not_eq_true] at hm
            simp [hm]
    · simp [test_hap_tcp_connection, tcpProbeRun, h0]
  · intro h0
    simp [tcpProbeRun, h0]
  · intro h0 hr
    subst h0; subst hr
    simp [tcpProbeRun]
  · intro h0 hr
    subst h0; subst hr
    simp [tcpProbeRun]
  · intro bytes h0 hr hne hm
    subst h0; subst hr
    have hb : bytes.isEmpty = false := by
      cases bytes with
      | nil => exact absurd rfl hne
      | cons c rest => rfl
    simp [tcpProbeRun, hb, hm]

/-- Witness for C6 at concrete inputs: refused connection (error code 111)
with the socket left as the probe leaves it, silent server, empty reply,
and a nonempty non-HTTP reply. -/
theorem c6_tcp_probe_witness :
    tcpProbeRun 111 RecvResult.timeout =
      ⟨false, false,
        "Cannot connect to HAP port: error code " ++ toString (111 : Int)⟩ ∧
    tcpProbeRun 0 RecvResult.timeout =
      ⟨false, true, "HAP server connection timed out"⟩ ∧
    tcpProbeRun 0 (RecvResult.data []) =
      ⟨false, true, "HAP server did not respond"⟩ ∧
    tcpProbeRun 0 (RecvResult.data ['A', 'B', 'C']) =
      ⟨false, true, "HAP server response is not HTTP"⟩ :=
  ⟨(c6_tcp_probe 111 RecvResult.timeout).2.1 (by decide),
   (c6_tcp_probe 0 RecvResult.timeout).2.2.1 rfl rfl,
   (c6_tcp_probe 0 (RecvResult.data [])).2.2.2.1 rfl rfl,
   (c6_tcp_probe 0 (RecvResult.data ['A', 'B', 'C'])).2.2.2.2
     ['A', 'B', 'C'] rfl rfl (by decide) (by decide)⟩

/-- C7 (code bug): the exit path of `test_hap_tcp_connection` taken when
`connect_ex` returns nonzero (here 111, ECONNREFUSED) returns without ever
calling `sock.close()` — the socket opened at line 160 is left open, since
the `finally` block at line 188 belongs only to the inner `try`. -/
theorem c7_socket_left_open_on_refused_connect :
    (tcpProbeRun 111 RecvResult.timeout).sockClosed = false := rfl

/-- C8 counterexample: the pairing script's mDNS advertisement probe does
not select its strategy by platform — on platform "linux" it still launches
the dns-sd browse command, not avahi-browse, refuting the claimed
selection rule. -/
theorem c8_counterexample :
    ¬ platformSelectsPerSpec TestHapPairing.mdnsAdvertisementCmd := by
  intro hsel
  have h := hsel "linux"
  rw [if_neg (by decide)] at h
  exact absurd h (by decide)

/-- C8 amended: the focused mDNS script's driver selects dns-sd when the
platform is "darwin" and avahi-browse otherwise, both strategies returning
the same boolean contract; the pairing script's advertisement probe,
however, launches the dns-sd browse command on every platform. -/
theorem c8_amended_platform_strategy (platform : String) :
    (selectStrategy platform =
      if platform = "darwin" then MdnsStrategy.dnsSd
      else MdnsStrategy.avahiBrowse) ∧
    TestHapPairing.mdnsAdvertisementCmd platform = dnsSdBrowseCmd := by
  refine ⟨?_, rfl⟩
  by_cases hp : platform = "darwin"
  · simp [selectStrategy, hp]
  · simp [selectStrategy, hp]

/-- C9: on every run, `run_all_tests` executes each of the four probes
exactly once, in the declared order TCP Connection, HAP Discovery, Web
API, mDNS Advertisement, and the run is identical whatever value the
(unread) retry-count constant has. -/
theorem c9_probe_order (maxRetries : Nat) (probe : ProbeName → Bool) :
    (run_all_tests_run maxRetries probe).2 = probeOrder ∧
    (∀ p : ProbeName, ((run_all_tests_run maxRetries probe).2).count p = 1) ∧
    run_all_tests_run maxRetries probe = run_all_tests_run MAX_RETRIES probe ∧
    (run_all_tests_run maxRetries probe).1 =
      ⟨probe .tcpConnection, probe .hapDiscovery, probe .webApi,
        probe .mdnsAdvertisement⟩ := by
  refine ⟨rfl, ?_, rfl, rfl⟩
  intro p
  cases p <;> rfl

/-- C10: in the focused mDNS script, a failed direct port check makes
`main` exit 1 with no discovery strategy invoked; and an exit status of 0
implies the port check passed, a strategy was invoked, and the selected
strategy reported success. -/
theorem c10_mdns_main_gate (portOk : Bool) (platform : String)
    (dnsSdResult avahiResult : Bool) :
    (portOk = false →
      mdns_main portOk platform dnsSdResult avahiResult = (1, false)) ∧
    ((mdns_main portOk platform dnsSdResult avahiResult).1 = 0 →
      portOk = true ∧
      (mdns_main portOk platform dnsSdResult avahiResult).2 = true ∧
      (match selectStrategy platform with
       | .dnsSd => dnsSdResult
       | .avahiBrowse => avahiResult) = true) := by
  cases portOk with
  | false => exact ⟨fun _ => rfl, by simp [mdns_main]⟩
  | true =>
    refine ⟨fun hfalse => absurd hfalse (by simp), ?_⟩
    intro h0
    cases hs : selectStrategy platform with
    | dnsSd =>
      cases hd : dnsSdResult with
      | false => simp [mdns_main, hs, hd] at h0
      | true => exact ⟨rfl, by simp [mdns_main, hs], by simp [hs]⟩
    | avahiBrowse =>
      cases ha : avahiResult with
      | false => simp [mdns_main, hs, ha] at h0
      | true => exact ⟨rfl, by simp [mdns_main, hs], by simp [hs]⟩

/-- Witness for C10 at concrete inputs: port check failed on "darwin", and
a zero exit on "darwin" with a succeeding dns-sd strategy. -/
theorem c10_mdns_main_gate_witness :
    mdns_main false "darwin" true true = (1, false) ∧
    (true = true ∧ (mdns_main true "darwin" true true).2 = true ∧
      (match selectStrategy "darwin" with
       | .dnsSd => true
       | .avahiBrowse => (true : Bool)) = true) :=
  ⟨(c10_mdns_main_gate false "darwin" true true).1 rfl,
   (c10_mdns_main_gate true "darwin" true true).2 rfl⟩

end SmartThingsBridge
